import Mathlib

/-!
Shallow embedding of the FreelancePay time-estimation and business-impact
engine (src/main.py).  Hours and timestamps are modelled as exact rationals;
strings keep Python semantics (`in` on strings is substring containment,
`.lower()` is per-character lowercasing).
-/

namespace FreelancePay

/-- Executable check that `needle` occurs as a contiguous sublist of `hay`. -/
def charsInfix (needle : List Char) : List Char → Bool
  | [] => needle.isEmpty
  | c :: tl => needle.isPrefixOf (c :: tl) || charsInfix needle tl

/-- Python's `str.lower()`: per-character lowercasing (ASCII-faithful). -/
def strLower (s : String) : String := String.mk (s.toList.map Char.toLower)

/-- Python's `needle in haystack` for strings: substring containment. -/
def strContains (hay needle : String) : Bool :=
  charsInfix needle.toList hay.toList

/-- A git commit as used by the estimator: authored time in seconds. -/
structure Commit where
  hexsha : String
  message : String
  authored_time : ℚ
  deriving DecidableEq, Repr

/-- A normalized task record (the dict built by `fetch_tasks`, later annotated
with `commits` and `time`). -/
structure Task where
  id : String := ""
  title : String := ""
  type : String := ""
  priority : String := "Medium"
  status : String := "Unknown"
  sprint_status : String := "Unknown"
  jira_time_spent : ℚ := 0
  jira_aggregate_time : ℚ := 0
  jira_time_estimate : ℚ := 0
  commits : List Commit := []
  time : ℚ := 0
  deriving DecidableEq, Repr

/-- `get_complexity_multiplier` from src/main.py. -/
def get_complexity_multiplier (task_title task_type : String) : ℚ :=
  let title_lower := (strLower task_title)
  let type_lower := (strLower task_type)
  let high_complexity_keywords := ["integration", "migration", "refactor", "architecture",
    "security", "performance", "optimization", "algorithm", "complex", "system"]
  let medium_complexity_keywords := ["feature", "implementation", "enhancement", "workflow",
    "process", "validation", "authentication", "database", "api"]
  let simple_keywords := ["fix", "update", "minor", "text", "styling", "copy", "simple"]
  if high_complexity_keywords.any (fun keyword => strContains title_lower keyword) then 1.8
  else if medium_complexity_keywords.any (fun keyword => strContains title_lower keyword) then 1.4
  else if simple_keywords.any (fun keyword => strContains title_lower keyword) then 1.0
  else if strContains type_lower "story" || strContains type_lower "epic" then 1.6
  else 1.2

/-- `get_priority_multiplier` from src/main.py. -/
def get_priority_multiplier (task_priority : String) : ℚ :=
  let priority_lower := strLower task_priority
  if ["highest", "critical"].contains priority_lower then 1.3
  else if ["high"].contains priority_lower then 1.1
  else 1.0

/-- `get_minimum_task_time` from src/main.py. -/
def get_minimum_task_time (task_type : String) : ℚ :=
  let type_lower := (strLower task_type)
  if strContains type_lower "epic" then 8.0
  else if strContains type_lower "story" then 4.0
  else if strContains type_lower "task" then 2.0
  else if strContains type_lower "bug" then 3.0
  else 2.0

/-- `get_base_task_time` from src/main.py. -/
def get_base_task_time (task_title task_type : String) : ℚ :=
  let type_lower := (strLower task_type)
  let title_lower := (strLower task_title)
  if ["research", "analysis", "planning", "design", "spec"].any
      (fun keyword => strContains title_lower keyword) then 4.0
  else if strContains type_lower "epic" then 6.0
  else if strContains type_lower "story" then 3.0
  else 1.5

/-- `estimate_git_commit_time` from src/main.py.  The source takes the min and
max of the authored datetimes and converts the span to hours; on an empty list
the source's `min()` would raise, an unreachable case (every caller guards
non-emptiness), modelled here as 0. -/
def estimate_git_commit_time (commits : List Commit) : ℚ :=
  if commits.length = 1 then 1.0
  else
    match commits.map (fun c => c.authored_time) with
    | [] => 0
    | t :: ts =>
      let first := ts.foldl min t
      let last := ts.foldl max t
      let hours := (last - first) / 3600
      if hours < 0.5 then max ((commits.length : ℚ) * 0.5) 1.0
      else if hours < 2 then max (hours * 1.2) 1.5
      else if hours > 24 then
        let days := hours / 24
        let commits_per_day := (commits.length : ℚ) / days
        min (commits_per_day * 2.0) 8.0
      else min (max (hours * 1.3) 2.0) 8.0

/-- `estimate_realistic_time` from src/main.py. -/
def estimate_realistic_time (commits : List Commit)
    (task_title task_type task_priority : String) : ℚ :=
  if commits.isEmpty then
    get_base_task_time task_title task_type * 0.3
  else
    let git_time := estimate_git_commit_time commits
    let complexity_multiplier := get_complexity_multiplier task_title task_type
    let priority_multiplier := get_priority_multiplier task_priority
    let realistic_multiplier := 2.5 + (complexity_multiplier - 1.0) + (priority_multiplier - 1.0)
    let realistic_time := git_time * realistic_multiplier
    let min_time := get_minimum_task_time task_type
    max realistic_time min_time

/-- `get_final_time_estimate` from src/main.py: the priority-ordered resolution
of the time signals. -/
def get_final_time_estimate (task : Task) (commits : List Commit) : ℚ :=
  if task.jira_time_spent > 0 then task.jira_time_spent
  else if task.jira_aggregate_time > 0 then task.jira_aggregate_time
  else if task.jira_time_estimate > 0 then
    if ¬ commits.isEmpty then task.jira_time_estimate
    else task.jira_time_estimate * 0.2
  else estimate_realistic_time commits task.title task.type task.priority

/-- `get_business_categories` from src/main.py: (key, keyword list, impact
label) in the dict's insertion order, which is the classifier's iteration
order. -/
def business_categories : List (String × List String × String) :=
  [("revenue_generation",
      ["discount", "coupon", "cart", "purchase", "payment", "checkout", "billing"],
      "Revenue & Sales"),
   ("user_experience",
      ["login", "session", "redirection", "thumbnail", "theme", "template", "ui", "ux"],
      "User Experience"),
   ("security_compliance",
      ["security", "token", "csrf", "cookie", "access", "auth", "validation"],
      "Security & Compliance"),
   ("operational_efficiency",
      ["admin", "crud", "filter", "management", "cron", "automation"],
      "Operational Efficiency"),
   ("platform_stability",
      ["bug", "fix", "error", "issue", "storage", "performance"],
      "Platform Stability"),
   ("feature_expansion",
      ["new", "add", "implement", "create", "feature", "story"],
      "Feature Expansion")]

/-- The lowercase search text `f"{task['title']} {task['type']}".lower()` from
`categorize_tasks_by_business_value`. -/
def task_search_text (task : Task) : String :=
  strLower (task.title ++ " " ++ task.type)

/-- `any(keyword in task_text for keyword in category['keywords'])`. -/
def category_matches (keywords : List String) (task_text : String) : Bool :=
  keywords.any (fun keyword => strContains task_text keyword)

/-- The inner loop of `categorize_tasks_by_business_value`: the first category
(in declaration order) whose keywords match the task's search text. -/
def classify_task (task : Task) : Option String :=
  (business_categories.find?
      (fun c => category_matches c.2.1 (task_search_text task))).map (fun c => c.1)

/-- One iteration of the outer loop of `categorize_tasks_by_business_value`:
append the task to its first matching category's list, or to uncategorized. -/
def categorize_step (acc : List (String × List Task) × List Task) (task : Task) :
    List (String × List Task) × List Task :=
  match classify_task task with
  | some key => (acc.1.map (fun b => if b.1 = key then (b.1, b.2 ++ [task]) else b), acc.2)
  | none => (acc.1, acc.2 ++ [task])

/-- `categorize_tasks_by_business_value` from src/main.py: the per-category
member lists (keyed, in declaration order) and the uncategorized list. -/
def categorize_tasks_by_business_value (tasks : List Task) :
    List (String × List Task) × List Task :=
  tasks.foldl categorize_step (business_categories.map (fun c => (c.1, [])), [])

/-- The Metrics aggregate returned by `calculate_business_metrics`. -/
structure Metrics where
  total_tasks : ℕ
  completed_tasks : ℕ
  total_time : ℚ
  high_priority_tasks : ℕ
  completion_rate : ℚ
  deriving DecidableEq, Repr

/-- `calculate_business_metrics` from src/main.py. -/
def calculate_business_metrics (tasks : List Task) : Metrics :=
  let total_completed := (tasks.filter (fun t => !t.commits.isEmpty)).length
  let total_time := ((tasks.filter (fun t => t.time > 0)).map (fun t => t.time)).sum
  let high_priority :=
    (tasks.filter (fun t => ["high", "highest"].contains (strLower t.priority))).length
  { total_tasks := tasks.length
    completed_tasks := total_completed
    total_time := total_time
    high_priority_tasks := high_priority
    completion_rate :=
      if tasks.isEmpty then 0 else (total_completed : ℚ) / (tasks.length : ℚ) * 100 }

/-!
Claim-side definitions: these transcribe the tables and predicates as the
spec/claims state them, to be compared with the definitions above that were
translated from the source.
-/

/-- Commit span in hours, (max authored time − min authored time) / 3600;
0 on an empty list (a case the claims never exercise). -/
def commit_span_hours (commits : List Commit) : ℚ :=
  match commits.map (fun c => c.authored_time) with
  | [] => 0
  | t :: ts => (ts.foldl max t - ts.foldl min t) / 3600

/-- The git-time table as claim C2 states it: 1.0 for exactly one commit,
otherwise the commit-span table. -/
def git_time_claim (commits : List Commit) : ℚ :=
  if commits.length = 1 then 1.0
  else
    let span := commit_span_hours commits
    if span < 0.5 then max ((commits.length : ℚ) * 0.5) 1.0
    else if span < 2 then max (span * 1.2) 1.5
    else if span > 24 then min (((commits.length : ℚ) / (span / 24)) * 2.0) 8.0
    else min (max (span * 1.3) 2.0) 8.0

/-- The complexity-multiplier table as §4.2 of the spec states it. -/
def complexity_multiplier_claim (title ty : String) : ℚ :=
  if ["integration", "migration", "refactor", "architecture", "security", "performance",
      "optimization", "algorithm", "complex", "system"].any
        (fun keyword => strContains (strLower title) keyword) then 1.8
  else if ["feature", "implementation", "enhancement", "workflow", "process",
      "validation", "authentication", "database", "api"].any
        (fun keyword => strContains (strLower title) keyword) then 1.4
  else if ["fix", "update", "minor", "text", "styling", "copy", "simple"].any
        (fun keyword => strContains (strLower title) keyword) then 1.0
  else if strContains (strLower ty) "story" || strContains (strLower ty) "epic" then 1.6
  else 1.2

/-- The priority-multiplier table as §4.2 of the spec states it: 1.3 for
{highest, critical}, 1.1 for {high}, else 1.0. -/
def priority_multiplier_claim (priority : String) : ℚ :=
  if ["highest", "critical"].contains (strLower priority) then 1.3
  else if ["high"].contains (strLower priority) then 1.1
  else 1.0

/-- The type-minimum table as claim C2 states it, keyed by the canonical
enum-like type names of the data model: 8.0 (Epic), 4.0 (Story), 3.0 (Bug),
2.0 (Task/default). -/
def minimum_for_type_claim (ty : String) : ℚ :=
  if ty = "Epic" then 8.0
  else if ty = "Story" then 4.0
  else if ty = "Bug" then 3.0
  else 2.0

/-- The no-commit base-time table exactly as claim C7 states it: 4.0h exactly
when the lowercased title contains research, analysis, planning or design,
else 6.0h for Epic type, 3.0h for Story type, else 1.5h. -/
def base_time_claim (title ty : String) : ℚ :=
  if ["research", "analysis", "planning", "design"].any
      (fun keyword => strContains (strLower title) keyword) then 4.0
  else if strContains (strLower ty) "epic" then 6.0
  else if strContains (strLower ty) "story" then 3.0
  else 1.5

/-- Modelled from the spec: the completion predicate claim C1 asserts for the
Metrics aggregate — at least one correlated commit OR status in
{done, closed, resolved} (case-insensitive). -/
def claimed_completed (t : Task) : Bool :=
  !t.commits.isEmpty || ["done", "closed", "resolved"].contains (strLower t.status)

/-- The amended C7 base-time table: the planning keyword list of
`get_base_task_time` also contains "spec". -/
def base_time_amended (title ty : String) : ℚ :=
  if ["research", "analysis", "planning", "design", "spec"].any
      (fun keyword => strContains (strLower title) keyword) then 4.0
  else if strContains (strLower ty) "epic" then 6.0
  else if strContains (strLower ty) "story" then 3.0
  else 1.5

/-! Concrete records used by witnesses and counterexamples. -/

/-- A sample commit. -/
def commitA : Commit := { hexsha := "abc123", message := "PROJ-5 fix bug", authored_time := 1000 }

/-- A status-Done task with no commits (C1). -/
def taskC1 : Task := { id := "PROJ-1", title := "Ship the thing", type := "Task", status := "Done" }

/-- A plain Task with Medium priority and a title matching no complexity or
planning keyword (C2). -/
def taskC2 : Task := { id := "PROJ-2", title := "Resolve ticket", type := "Task", priority := "Medium" }

/-- A task with tracker-logged time (C3). -/
def taskC3 : Task :=
  { id := "PROJ-3", title := "Handle payments", type := "Bug",
    jira_time_spent := 5, jira_time_estimate := 7 }

/-- A task with only an original estimate (C4). -/
def taskC4 : Task := { id := "PROJ-4", title := "Planned work", type := "Story", jira_time_estimate := 10 }

/-- The classifier scenario task of C5. -/
def taskC5 : Task := { id := "PROJ-5", title := "Fix login redirect issue", type := "Bug" }

/-- A small task set for C6's witness. -/
def tasksC6 : List Task := [taskC5, taskC2]

/-- A task whose title contains "spec" but none of C7's four keywords. -/
def taskC7 : Task := { id := "PROJ-7", title := "Write spec", type := "Task" }

/-- A task with nonnegative time fields (C8). -/
def taskC8 : Task :=
  { id := "PROJ-8", title := "Improve search", type := "Story",
    priority := "High", status := "In Progress" }

/-- A commit-bearing task (C9). -/
def taskC9 : Task :=
  { id := "PROJ-9", title := "Add billing page", type := "Task",
    commits := [commitA], time := 3 }

/-- A no-commit Task-type task whose title matches no planning keyword (C10). -/
def taskC10 : Task := { id := "PROJ-10", title := "Handle request", type := "Task" }

/-! Helper lemmas. -/

theorem none_beq_some (x : String) : ((none : Option String) == some x) = false := rfl

theorem some_beq_some (a b : String) : ((some a : Option String) == some b) = (a == b) := rfl

/-- C1 counterexample: on a task whose status is "Done" but which has no
commits, `calculate_business_metrics` does not count it completed, while the
claimed commit-or-status disjunction does. -/
theorem metrics_ignore_status_counterexample :
    (calculate_business_metrics [taskC1]).completed_tasks
      ≠ ([taskC1].filter claimed_completed).length := by decide

/-- C1 (amended): in the Metrics aggregate a task is counted as completed iff
it has at least one correlated commit; `completed_tasks` equals the number of
commit-bearing tasks and is invariant under arbitrary reassignment of every
task's status. -/
theorem metrics_completed_iff_commits (tasks : List Task) (f : Task → String) :
    (calculate_business_metrics
        (tasks.map (fun t => { t with status := f t }))).completed_tasks
      = tasks.countP (fun t => !t.commits.isEmpty) := by
  show ((tasks.map (fun t : Task => { t with status := f t })).filter
      (fun t : Task => !t.commits.isEmpty)).length
    = tasks.countP (fun t : Task => !t.commits.isEmpty)
  rw [← List.countP_eq_length_filter, List.countP_map]
  rfl

/-- C3: whenever the tracker-logged time is strictly positive, the estimator
returns it exactly, regardless of the commits argument and all other fields. -/
theorem logged_time_short_circuits (task : Task) (commits : List Commit)
    (h : 0 < task.jira_time_spent) :
    get_final_time_estimate task commits = task.jira_time_spent := by
  simp [get_final_time_estimate, h]

/-- Witness for C3: the rule fires on `taskC3` even though an estimate of 7 and
no commits are present. -/
theorem logged_time_short_circuits_witness :
    0 < taskC3.jira_time_spent ∧ get_final_time_estimate taskC3 [] = 5 :=
  ⟨by norm_num [taskC3], logged_time_short_circuits taskC3 [] (by norm_num [taskC3])⟩

/-- C4: with no logged or aggregate time and a positive original estimate, the
estimator returns the estimate unmodified when commits exist and
`estimate * 0.2` when the commits list is empty. -/
theorem estimate_partial_credit (task : Task) (commits : List Commit)
    (h1 : task.jira_time_spent = 0) (h2 : task.jira_aggregate_time = 0)
    (h3 : 0 < task.jira_time_estimate) :
    (commits ≠ [] → get_final_time_estimate task commits = task.jira_time_estimate) ∧
    (commits = [] → get_final_time_estimate task commits = task.jira_time_estimate * 0.2) := by
  constructor <;> intro hc
  · have : ¬ commits.isEmpty := by simp [List.isEmpty_iff, hc]
    simp [get_final_time_estimate, h1, h2, h3, this]
  · subst hc
    simp [get_final_time_estimate, h1, h2, h3]

/-- Witness for C4: estimate 10 with no commits yields exactly 2.0. -/
theorem estimate_partial_credit_witness :
    taskC4.jira_time_spent = 0 ∧ taskC4.jira_aggregate_time = 0 ∧
    0 < taskC4.jira_time_estimate ∧ get_final_time_estimate taskC4 [] = 2 := by
  refine ⟨rfl, rfl, by norm_num [taskC4], ?_⟩
  have h := (estimate_partial_credit taskC4 [] rfl rfl (by norm_num [taskC4])).2 rfl
  rw [h]; norm_num [taskC4]

/-- C5: the classifier assigns `taskC5` (title "Fix login redirect issue",
type "Bug") to the first matching category in declaration order, which is
`user_experience` ("login" matches), not `platform_stability`, even though the
platform-stability keyword list also matches the search text. -/
theorem classifier_first_match :
    classify_task taskC5 = some "user_experience" ∧
    classify_task taskC5 ≠ some "platform_stability" ∧
    ∃ c ∈ business_categories, c.1 = "platform_stability" ∧
      category_matches c.2.1 (task_search_text taskC5) = true := by
  refine ⟨by decide, by decide,
    ⟨("platform_stability",
       ["bug", "fix", "error", "issue", "storage", "performance"],
       "Platform Stability"), by decide, rfl, by decide⟩⟩

/-- C7 counterexample: on the no-commit task "Write spec" the estimator returns
4.0 * 0.3 = 1.2 (the source keyword list also contains "spec"), not the
0.45 = 1.5 * 0.3 the claimed four-keyword table prescribes. -/
theorem base_time_keyword_counterexample :
    get_final_time_estimate taskC7 [] = 1.2 ∧
    base_time_claim taskC7.title taskC7.type * 0.3 = 0.45 := by
  constructor
  · simp +decide [get_final_time_estimate, taskC7, estimate_realistic_time, get_base_task_time]
    norm_num
  · simp +decide [base_time_claim, taskC7]
    norm_num

/-- C7 (amended): for every task with all tracker time fields 0 and no commits
the estimator returns `base_time * 0.3`, where the 4.0h planning-keyword list
is research, analysis, planning, design AND spec, else 6.0h for Epic type,
3.0h for Story type, else 1.5h. -/
theorem no_commit_estimate_amended (task : Task)
    (h1 : task.jira_time_spent = 0) (h2 : task.jira_aggregate_time = 0)
    (h3 : task.jira_time_estimate = 0) :
    get_final_time_estimate task [] = base_time_amended task.title task.type * 0.3 := by
  simp [get_final_time_estimate, h1, h2, h3, estimate_realistic_time]
  exact Or.inl rfl

/-- Witness for C7's amended statement at a concrete planning-free title. -/
theorem no_commit_estimate_amended_witness :
    taskC7.jira_time_spent = 0 ∧ taskC7.jira_aggregate_time = 0 ∧
    taskC7.jira_time_estimate = 0 ∧
    get_final_time_estimate taskC7 [] = base_time_amended taskC7.title taskC7.type * 0.3 :=
  ⟨rfl, rfl, rfl, no_commit_estimate_amended taskC7 rfl rfl rfl⟩

/-- C9: the completion rate is `completed_tasks / total_tasks * 100`, and on an
empty task set the metric computation returns rate 0 rather than failing. -/
theorem completion_rate_formula (tasks : List Task) :
    (calculate_business_metrics []).completion_rate = 0 ∧
    (tasks ≠ [] →
      (calculate_business_metrics tasks).completion_rate =
        ((calculate_business_metrics tasks).completed_tasks : ℚ)
          / ((calculate_business_metrics tasks).total_tasks : ℚ) * 100) := by
  refine ⟨rfl, fun h => ?_⟩
  have hne : tasks.isEmpty = false := by simp [List.isEmpty_iff, h]
  simp [calculate_business_metrics, hne]

/-- Witness for C9 on a one-element task set with a commit: rate 100. -/
theorem completion_rate_formula_witness :
    ([taskC9] : List Task) ≠ [] ∧
    (calculate_business_metrics [taskC9]).completion_rate = 100 := by
  refine ⟨by simp, ?_⟩
  have h := (completion_rate_formula [taskC9]).2 (by simp)
  rw [h]; norm_num [calculate_business_metrics, taskC9, commitA]

/-- C10 (implicit): the type-minimum floor is not applied on the no-commit
branch — the Task-type task `taskC10` with no tracker fields and no commits is
estimated at 1.5 * 0.3 = 0.45 hours, strictly below the 2.0-hour Task
minimum. -/
theorem no_commit_branch_skips_minimum :
    get_final_time_estimate taskC10 [] = 0.45 ∧
    get_final_time_estimate taskC10 [] < get_minimum_task_time taskC10.type ∧
    get_minimum_task_time taskC10.type = 2 := by
  have h1 : get_final_time_estimate taskC10 [] = 0.45 := by
    simp +decide [get_final_time_estimate, taskC10, estimate_realistic_time, get_base_task_time]
    norm_num
  have h2 : get_minimum_task_time taskC10.type = 2 := by
    simp +decide [get_minimum_task_time, taskC10]
    norm_num
  refine ⟨h1, ?_, h2⟩
  rw [h1, h2]; norm_num

theorem get_minimum_task_time_pos (ty : String) : 0 < get_minimum_task_time ty := by
  simp only [get_minimum_task_time]
  split_ifs <;> norm_num

theorem get_base_task_time_pos (title ty : String) : 0 < get_base_task_time title ty := by
  simp only [get_base_task_time]
  split_ifs <;> norm_num

theorem estimate_realistic_time_nonneg (commits : List Commit) (title ty prio : String) :
    0 ≤ estimate_realistic_time commits title ty prio := by
  unfold estimate_realistic_time
  split_ifs with h
  · exact mul_nonneg (get_base_task_time_pos title ty).le (by norm_num)
  · exact le_trans (get_minimum_task_time_pos ty).le (le_max_right _ _)

/-- C8: the estimator is a pure function of (logged, aggregate, estimate,
commits, title, type, priority) — two tasks agreeing on those fields get the
same estimate whatever their other fields — and with nonnegative tracker time
fields its output is nonnegative. -/
theorem estimator_pure_and_nonneg (t1 t2 : Task) (commits : List Commit)
    (hfields : t1.jira_time_spent = t2.jira_time_spent ∧
      t1.jira_aggregate_time = t2.jira_aggregate_time ∧
      t1.jira_time_estimate = t2.jira_time_estimate ∧
      t1.title = t2.title ∧ t1.type = t2.type ∧ t1.priority = t2.priority)
    (hnn : 0 ≤ t1.jira_time_spent ∧ 0 ≤ t1.jira_aggregate_time ∧
      0 ≤ t1.jira_time_estimate) :
    get_final_time_estimate t1 commits = get_final_time_estimate t2 commits ∧
    0 ≤ get_final_time_estimate t1 commits := by
  obtain ⟨h1, h2, h3, h4, h5, h6⟩ := hfields
  obtain ⟨n1, n2, n3⟩ := hnn
  constructor
  · unfold get_final_time_estimate
    rw [h1, h2, h3, h4, h5, h6]
  · unfold get_final_time_estimate
    split_ifs with ha hb hc hd
    all_goals first
      | exact ha.le
      | exact hb.le
      | exact hc.le
      | exact mul_nonneg hc.le (by norm_num)
      | exact estimate_realistic_time_nonneg commits t1.title t1.type t1.priority

/-- Witness for C8 at a concrete task and commit list. -/
theorem estimator_pure_and_nonneg_witness :
    get_final_time_estimate taskC8 [commitA] = get_final_time_estimate taskC8 [commitA] ∧
    0 ≤ get_final_time_estimate taskC8 [commitA] :=
  estimator_pure_and_nonneg taskC8 taskC8 [commitA]
    ⟨rfl, rfl, rfl, rfl, rfl, rfl⟩ ⟨le_refl 0, le_refl 0, le_refl 0⟩

theorem estimate_git_commit_time_eq_claim (commits : List Commit) (hne : commits ≠ []) :
    estimate_git_commit_time commits = git_time_claim commits := by
  cases commits with
  | nil => exact absurd rfl hne
  | cons c cs => rfl

theorem complexity_multiplier_eq_claim (title ty : String) :
    get_complexity_multiplier title ty = complexity_multiplier_claim title ty := rfl

theorem priority_multiplier_eq_claim (p : String) :
    get_priority_multiplier p = priority_multiplier_claim p := rfl

theorem minimum_task_time_eq_claim (ty : String)
    (hty : ty ∈ (["Epic", "Story", "Task", "Bug", "Other"] : List String)) :
    get_minimum_task_time ty = minimum_for_type_claim ty := by
  fin_cases hty <;> simp +decide [get_minimum_task_time, minimum_for_type_claim]

/-- C2: for a task with all tracker time fields 0 and at least one commit, the
estimator returns `max (git_time * (2.5 + (complexity - 1.0) + (priority -
1.0))) minimum_for_type`, with git-time, multipliers and minimums given by the
claim-side tables (the type ranging over the data model's enum-like names). -/
theorem estimator_realistic_formula (task : Task) (commits : List Commit)
    (h1 : task.jira_time_spent = 0) (h2 : task.jira_aggregate_time = 0)
    (h3 : task.jira_time_estimate = 0) (hne : commits ≠ [])
    (hty : task.type ∈ (["Epic", "Story", "Task", "Bug", "Other"] : List String)) :
    get_final_time_estimate task commits =
      max (git_time_claim commits *
            (2.5 + (complexity_multiplier_claim task.title task.type - 1.0)
                 + (priority_multiplier_claim task.priority - 1.0)))
          (minimum_for_type_claim task.type) := by
  have hemp : commits.isEmpty = false := by
    cases commits with
    | nil => exact absurd rfl hne
    | cons c cs => rfl
  have hroute : get_final_time_estimate task commits
      = estimate_realistic_time commits task.title task.type task.priority := by
    simp [get_final_time_estimate, h1, h2, h3]
  rw [hroute]
  unfold estimate_realistic_time
  rw [hemp]
  simp only [Bool.false_eq_true, if_false]
  rw [estimate_git_commit_time_eq_claim commits hne,
    minimum_task_time_eq_claim task.type hty,
    complexity_multiplier_eq_claim, priority_multiplier_eq_claim]

/-- Witness for C2: a single-commit Task with priority Medium and a
keyword-free title is estimated at exactly 2.7 hours. -/
theorem estimator_realistic_formula_witness :
    taskC2.jira_time_spent = 0 ∧ taskC2.jira_aggregate_time = 0 ∧
    taskC2.jira_time_estimate = 0 ∧
    get_final_time_estimate taskC2 [commitA] = 2.7 := by
  refine ⟨rfl, rfl, rfl, ?_⟩
  have h := estimator_realistic_formula taskC2 [commitA] rfl rfl rfl (by simp) (by decide)
  rw [h]
  have hg : git_time_claim [commitA] = 1.0 := by
    simp +decide [git_time_claim]
  have hcm : complexity_multiplier_claim taskC2.title taskC2.type = 1.2 := by
    simp +decide [complexity_multiplier_claim, taskC2]
  have hpm : priority_multiplier_claim taskC2.priority = 1.0 := by
    simp +decide [priority_multiplier_claim, taskC2]
  have hmin : minimum_for_type_claim taskC2.type = 2.0 := by
    simp +decide [minimum_for_type_claim, taskC2]
  rw [hg, hcm, hpm, hmin, max_def]
  norm_num

theorem foldl_categorize_step (tasks : List Task) (bs : List (String × List Task))
    (u : List Task) :
    tasks.foldl categorize_step (bs, u) =
      (bs.map (fun b => (b.1, b.2 ++ tasks.filter (fun t => classify_task t == some b.1))),
       u ++ tasks.filter (fun t => (classify_task t).isNone)) := by
  induction tasks generalizing bs u with
  | nil => simp
  | cons t ts ih =>
    rw [List.foldl_cons]
    cases hc : classify_task t with
    | none =>
      have hstep : categorize_step (bs, u) t = (bs, u ++ [t]) := by
        simp [categorize_step, hc]
      rw [hstep, ih]
      simp only [Prod.mk.injEq]
      constructor
      · have hfun : (fun b : String × List Task =>
            (b.1, b.2 ++ (t :: ts).filter (fun t' => classify_task t' == some b.1)))
            = (fun b : String × List Task =>
            (b.1, b.2 ++ ts.filter (fun t' => classify_task t' == some b.1))) := by
          funext b
          simp [List.filter_cons, hc, none_beq_some]
        rw [hfun]
      · simp [List.filter_cons, hc, List.append_assoc]
    | some k =>
      have hstep : categorize_step (bs, u) t
          = (bs.map (fun b => if b.1 = k then (b.1, b.2 ++ [t]) else b), u) := by
        simp [categorize_step, hc]
      rw [hstep, ih, List.map_map]
      simp only [Prod.mk.injEq]
      constructor
      · have hfun : ((fun b : String × List Task =>
              (b.1, b.2 ++ ts.filter (fun t' => classify_task t' == some b.1)))
            ∘ (fun b : String × List Task =>
              if b.1 = k then (b.1, b.2 ++ [t]) else b))
            = (fun b : String × List Task =>
              (b.1, b.2 ++ (t :: ts).filter (fun t' => classify_task t' == some b.1))) := by
          funext b
          by_cases hbk : b.1 = k
          · simp [Function.comp, hbk, List.filter_cons, hc, some_beq_some]
          · simp [Function.comp, hbk, List.filter_cons, hc, some_beq_some,
              Ne.symm hbk]
        rw [hfun]
      · simp [List.filter_cons, hc]

theorem categorize_buckets_eq (tasks : List Task) :
    (categorize_tasks_by_business_value tasks).1 =
      business_categories.map
        (fun c => (c.1, tasks.filter (fun t => classify_task t == some c.1))) ∧
    (categorize_tasks_by_business_value tasks).2 =
      tasks.filter (fun t => (classify_task t).isNone) := by
  unfold categorize_tasks_by_business_value
  rw [foldl_categorize_step, List.map_map]
  exact ⟨rfl, rfl⟩

theorem classify_task_mem (task : Task) (k : String) (h : classify_task task = some k) :
    ∃ c ∈ business_categories, c.1 = k := by
  unfold classify_task at h
  cases hf : business_categories.find?
      (fun c => category_matches c.2.1 (task_search_text task)) with
  | none => rw [hf] at h; simp at h
  | some c =>
    rw [hf] at h
    simp at h
    exact ⟨c, List.mem_of_find?_eq_some hf, h⟩

theorem countP_business_key (k : String) (hk : ∃ c ∈ business_categories, c.1 = k) :
    business_categories.countP (fun c => k == c.1) = 1 := by
  obtain ⟨c, hmem, hck⟩ := hk
  subst hck
  fin_cases hmem <;> decide

/-- C6: after classification every input task lands in exactly one bucket —
the number of category member lists containing it, plus one if it is in the
uncategorized list, is exactly 1 (mutual exclusivity and completeness). -/
theorem categorize_exactly_one_bucket (tasks : List Task) (t : Task) (ht : t ∈ tasks) :
    (categorize_tasks_by_business_value tasks).1.countP (fun b => decide (t ∈ b.2)) +
      (if t ∈ (categorize_tasks_by_business_value tasks).2 then 1 else 0) = 1 := by
  obtain ⟨hb, hu⟩ := categorize_buckets_eq tasks
  rw [hb, hu, List.countP_map]
  have hpred : ((fun b : String × List Task => decide (t ∈ b.2)) ∘
      (fun c : String × List String × String =>
        (c.1, tasks.filter (fun t' => classify_task t' == some c.1))))
      = (fun c : String × List String × String => classify_task t == some c.1) := by
    funext c
    by_cases hcc : (classify_task t == some c.1) = true
    · simp [Function.comp, List.mem_filter, ht, hcc]
    · rw [Bool.not_eq_true] at hcc
      simp [Function.comp, List.mem_filter, hcc]
  rw [hpred]
  cases hc : classify_task t with
  | none =>
    have h0 : business_categories.countP
        (fun c => ((none : Option String) == some c.1)) = 0 := by decide
    have hmem : t ∈ tasks.filter (fun t' => (classify_task t').isNone) := by
      simp [List.mem_filter, ht, hc]
    rw [h0, if_pos hmem]
  | some k =>
    have hone := countP_business_key k (classify_task_mem t k hc)
    have hnot : t ∉ tasks.filter (fun t' => (classify_task t').isNone) := by
      simp [List.mem_filter, hc]
    rw [if_neg hnot]
    have hbeq : (fun c : String × List String × String =>
        ((some k : Option String) == some c.1)) = (fun c => k == c.1) := by
      funext c; rw [some_beq_some]
    rw [hbeq, hone]

/-- Witness for C6 on a concrete two-task set. -/
theorem categorize_exactly_one_bucket_witness :
    taskC5 ∈ tasksC6 ∧
    ((categorize_tasks_by_business_value tasksC6).1.countP
        (fun b => decide (taskC5 ∈ b.2)) +
      (if taskC5 ∈ (categorize_tasks_by_business_value tasksC6).2 then 1 else 0) = 1) :=
  ⟨by decide, categorize_exactly_one_bucket tasksC6 taskC5 (by decide)⟩

end FreelancePay
